import Mathlib

/-!
Verification of the independence-day registration tool (src/expenses.py).

The program is a single-file Streamlit app: a form collects child-attendee
records, persists them either to a Firestore collection or to a local JSON
file, and generates a one-page PDF pass per attendee.  We embed the
persistence layer, the form-submit handler, the backend-selection logic and
the PDF layout routine shallowly:

* Python dictionaries with string keys become association lists;
* the local JSON file (`local_attendees.json`) is modelled by its state:
  absent, present-but-unparseable, or present with a parsed JSON value
  (`json.dump`/`json.load` of the values this program writes is the
  identity on the parsed representation);
* the nondeterministic inputs of the handler — the UUID string drawn by
  `uuid.uuid4()` and the `datetime` timestamps — are passed as parameters;
* the ReportLab canvas calls of `generate_pass_pdf_bytes` become a list of
  drawing operations with exact rational coordinates (A4 landscape,
  1 mm = 72/25.4 pt).
-/

/-- JSON values, the parse result of `json.load`. -/
inductive Json where
  | jnull : Json
  | jbool : Bool → Json
  | jnum : Int → Json
  | jstr : String → Json
  | jarr : List Json → Json
  | jobj : List (String × Json) → Json

/-- An attendee record: a Python dict with string keys and string values,
as built by the form-submit handler (keys are distinct by construction). -/
abbrev Rec := List (String × String)

/-- Python `d.get(k, default)` on a string-valued dict. -/
def dictGet (r : Rec) (k d : String) : String :=
  (r.lookup k).getD d

/-- How `json.dump` represents one attendee dict: a JSON object whose
values are the strings of the record. -/
def recordToJson (r : Rec) : Json :=
  .jobj (r.map fun p => (p.1, .jstr p.2))

/-- Reading the fields of a parsed JSON object back as a string-valued
dict; fails on any non-string value. -/
def decodeFields : List (String × Json) → Option Rec
  | [] => some []
  | (k, .jstr s) :: rest => (decodeFields rest).map fun r => (k, s) :: r
  | _ => none

/-- Reading an attendee dict back out of a parsed JSON value (`json.load`
yields a dict of strings for the objects this program writes). -/
def jsonToRecord : Json → Option Rec
  | .jobj fs => decodeFields fs
  | _ => none

/-- Reading a whole parsed array back as a list of attendee dicts. -/
def decodeAll : List Json → Option (List Rec)
  | [] => some []
  | j :: rest =>
    match jsonToRecord j with
    | some r => (decodeAll rest).map fun rs => r :: rs
    | none => none

/-- Contents of `local_attendees.json` when the file exists: either raw
text that `json.load` rejects, or a successfully parsed JSON value. -/
inductive FileContent where
  | malformed (raw : String)
  | wellFormed (j : Json)

/-- State of the local storage file. -/
inductive LocalFile where
  | absent
  | present (c : FileContent)

/-- `load_local` (src/expenses.py:49-56): returns `[]` when the file is
absent, `[]` when `json.load` raises (bare `except`), and otherwise the
parsed value, whatever it is.  The function is total: no exception
escapes it. -/
def load_local : LocalFile → Json
  | .absent => .jarr []
  | .present (.malformed _) => .jarr []
  | .present (.wellFormed j) => j

/-- `save_local` (src/expenses.py:58-62): read-modify-write.  `data` is
whatever `load_local` returned; `data.append(att)` succeeds only when it
is a list (`none` models the `AttributeError` Python would raise on any
other value), and the file is rewritten with the extended array. -/
def save_local (att : Json) (fs : LocalFile) : Option LocalFile :=
  match load_local fs with
  | .jarr xs => some (.present (.wellFormed (.jarr (xs ++ [att]))))
  | _ => none

/-- `EVENT_NAME` (src/expenses.py:21). -/
def EVENT_NAME : String := "Independence Day"

/-- Python `s.strip()`: the string with leading and trailing whitespace
removed. -/
def pyStrip (s : String) : String :=
  ⟨((s.data.dropWhile Char.isWhitespace).reverse.dropWhile Char.isWhitespace).reverse⟩

/-- One typographic point per millimetre: ReportLab's `mm` unit,
72 pt per inch, 25.4 mm per inch. -/
def mmPt : ℚ := 72 / 25.4

/-- Width of `landscape(A4)`: 297 mm. -/
def pageWidth : ℚ := 297 * mmPt

/-- Height of `landscape(A4)`: 210 mm. -/
def pageHeight : ℚ := 210 * mmPt

/-- The ReportLab canvas calls issued by `generate_pass_pdf_bytes`, in
order, with their exact arguments. -/
inductive DrawOp where
  | setFont (font : String) (size : ℚ)
  | drawCentredString (x y : ℚ) (text : String)
  | drawRightString (x y : ℚ) (text : String)
  | drawString (x y : ℚ) (text : String)
  | roundRect (x y w h radius : ℚ) (stroke fill : Nat)
  | line (x1 y1 x2 y2 : ℚ)
  | showPage
  deriving DecidableEq, Repr

/-- `generate_pass_pdf_bytes` (src/expenses.py:65-116) as the sequence of
canvas operations it performs.  `ts` is the string
`datetime.now().strftime('%d %b %Y %H:%M')` read once at line 74; the PDF
bytes are a function of this operation list. -/
def generate_pass_pdf_bytes (attendee : Rec) (ts : String) : List DrawOp :=
  let width := pageWidth
  let height := pageHeight
  let box_x : ℚ := 60
  let box_y : ℚ := 120
  let box_w := width - 120
  let box_h := height - 220
  let left_x := box_x + 30
  let y0 := box_y + box_h - 40
  let gap : ℚ := 30
  [ .setFont "Helvetica-Bold" 28,
    .drawCentredString (width / 2) (height - 60) (EVENT_NAME ++ " - Children's Pass"),
    .setFont "Helvetica" 12,
    .drawRightString (width - 40) (height - 40) ("Generated: " ++ ts),
    .roundRect box_x box_y box_w box_h 10 1 0,
    .setFont "Helvetica-Bold" 20,
    .drawString left_x y0 (dictGet attendee "name" "Unknown"),
    .setFont "Helvetica" 14,
    .drawString left_x (y0 - gap) ("Class / Grade : " ++ dictGet attendee "class" "-"),
    .drawString left_x (y0 - 2 * gap) ("Age           : " ++ dictGet attendee "age" "-"),
    .drawString left_x (y0 - 3 * gap) ("Contact       : " ++ dictGet attendee "contact" "-"),
    .drawString left_x (y0 - 4 * gap) ("Reference     : " ++ dictGet attendee "reference" "-"),
    .setFont "Helvetica-Oblique" 12,
    .drawString left_x (y0 - 5 * gap) ("- " ++ "Please carry this pass during the event."),
    .drawString left_x (y0 - 5 * gap - 18) ("- " ++ "Parents/Guardians must supervise children."),
    .setFont "Helvetica" 12,
    .drawString (width - 260) (box_y + 30) "Authorized signature:",
    .line (width - 260) (box_y + 25) (width - 90) (box_y + 25),
    .setFont "Helvetica-Bold" 10,
    .drawCentredString (width / 2) 30 (EVENT_NAME ++ " • Organised by Your Organization"),
    .showPage ]

/-- The five text inputs of the registration form (src/expenses.py:134-140). -/
structure FormInput where
  name : String
  cls : String
  age : String
  contact : String
  reference : String

/-- The feedback the submit handler shows: `st.error("Name is required")`
or `st.success(f"Saved attendee: {name}")` (with the raw, untrimmed name). -/
inductive SubmitMsg where
  | errorNameRequired
  | savedAttendee (shownName : String)
  deriving DecidableEq, Repr

/-- The dict built at src/expenses.py:146-153.  `uuidStr` is the string
`str(uuid.uuid4())` drawn at line 151; `reference.strip() or str(uuid.uuid4())[:8]`
keeps the trimmed reference when it is non-empty (Python `or` on strings)
and otherwise takes the first 8 characters of the UUID.  `ts` is
`datetime.utcnow().isoformat()`. -/
def mkDoc (inp : FormInput) (uuidStr ts : String) : Rec :=
  [("name", pyStrip inp.name),
   ("class", pyStrip inp.cls),
   ("age", pyStrip inp.age),
   ("contact", pyStrip inp.contact),
   ("reference", if pyStrip inp.reference = "" then uuidStr.take 8 else pyStrip inp.reference),
   ("created_at", ts)]

/-- The form-submit handler (src/expenses.py:142-158) in a local-storage
session (`db_client is None`): an empty trimmed name reports a validation
error and leaves the file untouched; otherwise the built dict is appended
via `save_local`.  `none` models an exception escaping the handler. -/
def form_submit (inp : FormInput) (uuidStr ts : String) (fs : LocalFile) :
    Option (SubmitMsg × LocalFile) :=
  if pyStrip inp.name = "" then
    some (.errorNameRequired, fs)
  else
    (save_local (recordToJson (mkDoc inp uuidStr ts)) fs).map
      fun fs2 => (.savedAttendee inp.name, fs2)

/-- A sequence of form submissions, each with its own UUID draw and
timestamp, run against the local file. -/
def runSubmits : List (FormInput × String × String) → LocalFile → Option LocalFile
  | [], fs => some fs
  | (inp, u, ts) :: rest, fs =>
    match form_submit inp u ts fs with
    | some (_, fs2) => runSubmits rest fs2
    | none => none

/-- Appending a list of attendee dicts one by one with `save_local`,
left to right; `none` as soon as one append raises. -/
def appendAll : List Rec → LocalFile → Option LocalFile
  | [], fs => some fs
  | r :: rest, fs =>
    match save_local (recordToJson r) fs with
    | some fs2 => appendAll rest fs2
    | none => none

/-- A JSON value that is an object carrying a non-empty string at key `k`. -/
def hasNonEmptyField (j : Json) (k : String) : Prop :=
  ∃ s, (match j with | .jobj fs => fs.lookup k | _ => none) = some (.jstr s) ∧ s ≠ ""

/-- The storage invariant of §3 of the spec, as a property of the local
file: it parses to an array, and every element is an object with a
non-empty `name` and a non-empty `reference`. -/
def goodState (fs : LocalFile) : Prop :=
  ∃ xs, load_local fs = .jarr xs ∧
    ∀ j ∈ xs, hasNonEmptyField j "name" ∧ hasNonEmptyField j "reference"

/-- A handle to a connected Firestore client (the value of
`firestore.client()`); its internals are external to this program. -/
structure Client where
  handle : Nat
  deriving DecidableEq, Repr

/-- The environment `init_firebase` consults: whether the
`firebase_admin` import succeeded, whether `serviceAccountKey.json`
exists, and what the credential/app/client construction does —
either yield a client or raise (with a message). -/
structure FirebaseEnv where
  firebase_available : Bool
  cred_file_exists : Bool
  connect : Except String Client

/-- `init_firebase` (src/expenses.py:24-36): `None` when the library is
unavailable, `None` when the credentials file is missing, `None` (after a
warning) when construction raises, and the client otherwise. -/
def init_firebase (env : FirebaseEnv) : Option Client :=
  if !env.firebase_available then none
  else if env.cred_file_exists then
    match env.connect with
    | .ok c => some c
    | .error _ => none
  else none

/-- The remote collection: documents with their server-assigned ids, in
stream order. -/
abbrev RemoteColl := List (String × Rec)

/-- The storage write of the submit handler (src/expenses.py:154-157):
with a client, `save_to_firestore` creates a document under a
server-assigned id (`serverId`) and the handler records it in the dict
under `_id`; without one, `save_local` appends to the file.  Returns the
final dict, the remote collection and the local file. -/
def store_record (dbc : Option Client) (doc : Rec) (serverId : String)
    (remote : RemoteColl) (fs : LocalFile) :
    Option (Rec × RemoteColl × LocalFile) :=
  match dbc with
  | some _ => some (doc ++ [("_id", serverId)], remote ++ [(serverId, doc)], fs)
  | none => (save_local (recordToJson doc) fs).map fun fs2 => (doc, remote, fs2)

/-- The storage read of the listing (src/expenses.py:161-164): with a
client, `read_from_firestore` streams the documents and decorates each
with its id under `_id`; without one, `load_local`. -/
def load_attendees (dbc : Option Client) (remote : RemoteColl) (fs : LocalFile) : Json :=
  match dbc with
  | some _ => .jarr (remote.map fun p => recordToJson (p.2 ++ [("_id", p.1)]))
  | none => load_local fs

/-! ## Helper lemmas -/

/-- A slice `[:8]` of a non-empty string is non-empty. -/
theorem take_eight_ne_empty (u : String) (h : u ≠ "") : u.take 8 ≠ "" := by
  intro hc
  have hd : (u.take 8).data = ([] : List Char) := congrArg String.data hc
  rw [String.data_take, List.take_eq_nil_iff] at hd
  rcases hd with hd | hd
  · omega
  · exact h (String.ext hd)

/-- Decoding the serialized form of a record gives the record back. -/
theorem decodeFields_recordToJson (r : Rec) :
    decodeFields (r.map fun p => (p.1, Json.jstr p.2)) = some r := by
  induction r with
  | nil => rfl
  | cons a l ih => simp [decodeFields, ih]

/-- Decoding a serialized list of records gives the list back. -/
theorem decodeAll_map_recordToJson (rs : List Rec) :
    decodeAll (rs.map recordToJson) = some rs := by
  induction rs with
  | nil => rfl
  | cons r l ih =>
    simp [decodeAll, jsonToRecord, recordToJson, decodeFields_recordToJson r, ih]

/-- `appendAll` on a file parsing to an array succeeds and extends the
array in order. -/
theorem appendAll_load (recs : List Rec) :
    ∀ (fs : LocalFile) (xs : List Json), load_local fs = .jarr xs →
      ∃ fs2, appendAll recs fs = some fs2 ∧
        load_local fs2 = .jarr (xs ++ recs.map recordToJson) := by
  induction recs with
  | nil => intro fs xs h; exact ⟨fs, rfl, by simp [h]⟩
  | cons r rest ih =>
    intro fs xs h
    have hsave : save_local (recordToJson r) fs =
        some (.present (.wellFormed (.jarr (xs ++ [recordToJson r])))) := by
      simp [save_local, h]
    obtain ⟨fs2, h1, h2⟩ :=
      ih (.present (.wellFormed (.jarr (xs ++ [recordToJson r])))) (xs ++ [recordToJson r]) rfl
    exact ⟨fs2, by simp [appendAll, hsave, h1], by simp [h2]⟩

/-! ## The claims -/

/-- C5: for every state of the local file — absent, or present with
contents that fail to parse as JSON — `load_local` returns the empty
collection; being a total function of the file state, it propagates no
exception. -/
theorem load_local_absent_or_corrupt_empty :
    load_local .absent = .jarr [] ∧
    ∀ raw : String, load_local (.present (.malformed raw)) = .jarr [] :=
  ⟨rfl, fun _ => rfl⟩

/-- C9: `load_local` returns whatever the file parses to, unvalidated:
on a file holding the JSON number 5 it returns that number, which is
neither an array (so not the empty collection) nor the serialization of
any list of records. -/
theorem load_local_returns_unvalidated_value :
    load_local (.present (.wellFormed (.jnum 5))) = .jnum 5 ∧
    (∀ xs : List Json, Json.jnum 5 ≠ .jarr xs) ∧
    load_local (.present (.wellFormed (.jobj [("a", .jstr "b")]))) =
      .jobj [("a", .jstr "b")] ∧
    (∀ xs : List Json, Json.jobj [("a", .jstr "b")] ≠ .jarr xs) :=
  ⟨rfl, fun _ h => Json.noConfusion h, rfl, fun _ h => Json.noConfusion h⟩

/-- C2: a submission whose name is empty or whitespace-only after
trimming performs no append: the handler reports the validation error
and the file state is returned unchanged. -/
theorem blank_name_no_write (inp : FormInput) (u ts : String) (fs : LocalFile)
    (h : pyStrip inp.name = "") :
    form_submit inp u ts fs = some (.errorNameRequired, fs) := by
  simp [form_submit, h]

/-- Witness for C2 at a whitespace-only name. -/
theorem blank_name_no_write_witness :
    form_submit ⟨"   ", "3A", "8", "555-0101", "r"⟩ "u" "t" .absent =
      some (.errorNameRequired, .absent) :=
  blank_name_no_write ⟨"   ", "3A", "8", "555-0101", "r"⟩ "u" "t" .absent (by decide)

/-- C7: the renderer is a pure function of the record and the timestamp
string; two runs on the same record give operation lists of the same
length that agree everywhere except at index 3, which holds the embedded
generation timestamp. -/
theorem render_deterministic_modulo_timestamp (att : Rec) (t1 t2 : String) :
    (generate_pass_pdf_bytes att t1).eraseIdx 3 =
      (generate_pass_pdf_bytes att t2).eraseIdx 3 ∧
    (generate_pass_pdf_bytes att t1).get? 3 =
      some (.drawRightString (pageWidth - 40) (pageHeight - 40) ("Generated: " ++ t1)) ∧
    (generate_pass_pdf_bytes att t1).length = (generate_pass_pdf_bytes att t2).length :=
  ⟨rfl, rfl, rfl⟩

/-- C10: a record with no `name` key at all renders the literal text
"Unknown" in the name position (index 6, the bold 20pt line), not the
dash used for the other fields, and the full 21-operation document is
still produced. -/
theorem render_missing_name_unknown (att : Rec) (ts : String)
    (h : att.lookup "name" = none) :
    (generate_pass_pdf_bytes att ts).get? 6 =
      some (.drawString 90 (pageHeight - 140) "Unknown") ∧
    (generate_pass_pdf_bytes att ts).length = 21 := by
  constructor
  · simp [generate_pass_pdf_bytes, dictGet, h]
    ring_nf
    exact ⟨trivial, trivial⟩
  · rfl

/-- Witness for C10 at a record holding only a class. -/
theorem render_missing_name_unknown_witness :
    (generate_pass_pdf_bytes [("class", "3A")] "t").get? 6 =
      some (.drawString 90 (pageHeight - 140) "Unknown") ∧
    (generate_pass_pdf_bytes [("class", "3A")] "t").length = 21 :=
  render_missing_name_unknown [("class", "3A")] "t" (by decide)

/-- The handler preserves the storage invariant: one submission, with a
non-empty UUID draw, keeps every stored record's `name` and `reference`
non-empty. -/
theorem form_submit_goodState (inp : FormInput) (u ts : String) (fs : LocalFile)
    (msg : SubmitMsg) (fs2 : LocalFile) (hu : u ≠ "")
    (hgood : goodState fs) (h : form_submit inp u ts fs = some (msg, fs2)) :
    goodState fs2 := by
  obtain ⟨xs, hload, hall⟩ := hgood
  by_cases hname : pyStrip inp.name = ""
  · simp [form_submit, hname] at h
    exact h.2 ▸ ⟨xs, hload, hall⟩
  · simp [form_submit, hname, save_local, hload] at h
    rcases h with ⟨hmsg, hfs⟩
    subst hfs
    refine ⟨xs ++ [recordToJson (mkDoc inp u ts)], rfl, ?_⟩
    intro j hj
    rcases List.mem_append.mp hj with hj | hj
    · exact hall j hj
    · simp only [List.mem_singleton] at hj
      subst hj
      constructor
      · exact ⟨pyStrip inp.name,
          by simp [hasNonEmptyField, recordToJson, mkDoc, List.lookup], hname⟩
      · refine ⟨if pyStrip inp.reference = "" then u.take 8 else pyStrip inp.reference,
          by simp [hasNonEmptyField, recordToJson, mkDoc, List.lookup], ?_⟩
        split
        · exact take_eight_ne_empty u hu
        · next href => exact href

/-- Any sequence of submissions with non-empty UUID draws preserves the
storage invariant. -/
theorem runSubmits_goodState (steps : List (FormInput × String × String)) :
    ∀ fs, goodState fs → (∀ s ∈ steps, s.2.1 ≠ "") →
      ∀ fs2, runSubmits steps fs = some fs2 → goodState fs2 := by
  induction steps with
  | nil =>
    intro fs hg _ fs2 h
    simp [runSubmits] at h
    exact h ▸ hg
  | cons s rest ih =>
    intro fs hg hu fs2 h
    obtain ⟨inp, u, ts⟩ := s
    simp only [runSubmits] at h
    cases hfs : form_submit inp u ts fs with
    | none => rw [hfs] at h; simp at h
    | some p =>
      obtain ⟨msg, fs1⟩ := p
      rw [hfs] at h
      have hg1 := form_submit_goodState inp u ts fs msg fs1
        (hu (inp, u, ts) (List.mem_cons_self _ _)) hg hfs
      exact ih fs1 hg1 (fun s hs => hu s (List.mem_cons_of_mem _ hs)) fs2 h

/-- C3: starting from an empty store, after any sequence of submits with
non-empty UUID draws, every persisted record has a non-empty name and a
non-empty reference; and whenever the submitted reference trims to the
empty string, the dict stores the first eight characters of the UUID,
which are non-empty. -/
theorem registration_invariant (steps : List (FormInput × String × String))
    (hu : ∀ s ∈ steps, s.2.1 ≠ "") (fs2 : LocalFile)
    (hrun : runSubmits steps .absent = some fs2) :
    goodState fs2 ∧
    ∀ (inp : FormInput) (u ts : String), u ≠ "" → pyStrip inp.reference = "" →
      dictGet (mkDoc inp u ts) "reference" "" = u.take 8 ∧ u.take 8 ≠ "" := by
  constructor
  · exact runSubmits_goodState steps .absent ⟨[], rfl, by simp⟩ hu fs2 hrun
  · intro inp u ts hu8 href
    exact ⟨by simp [dictGet, mkDoc, List.lookup, href], take_eight_ne_empty u hu8⟩

/-- Witness for C3: one submission with an omitted reference. -/
theorem registration_invariant_witness :
    goodState (.present (.wellFormed (.jarr [.jobj
      [("name", .jstr "Asha"), ("class", .jstr "3A"), ("age", .jstr "8"),
       ("contact", .jstr "555"), ("reference", .jstr "cafe1234"),
       ("created_at", .jstr "T")]]))) ∧
    dictGet (mkDoc ⟨"Asha", "3A", "8", "555", ""⟩ "cafe1234-xyz" "T") "reference" "" =
      "cafe1234-xyz".take 8 ∧ "cafe1234-xyz".take 8 ≠ "" := by
  have h := registration_invariant
    [(⟨"Asha", "3A", "8", "555", ""⟩, "cafe1234-xyz", "T")] (by decide) _ rfl
  exact ⟨h.1, h.2 ⟨"Asha", "3A", "8", "555", ""⟩ "cafe1234-xyz" "T"
    (by decide) (by decide)⟩

/-- C4: appending any list of records one by one with `save_local`
(starting from no file) succeeds, and `load_local` then returns exactly
those records, in append order; decoding the stored array gives every
field value back unchanged. -/
theorem local_roundtrip (recs : List Rec) :
    ∃ fs2, appendAll recs .absent = some fs2 ∧
      load_local fs2 = .jarr (recs.map recordToJson) ∧
      decodeAll (recs.map recordToJson) = some recs := by
  obtain ⟨fs2, h1, h2⟩ := appendAll_load recs .absent [] rfl
  exact ⟨fs2, h1, by simpa using h2, decodeAll_map_recordToJson recs⟩

/-- C8: when Firebase initialization fails for any reason (library
unavailable, credentials file missing, or client construction raising),
`init_firebase` yields no client, and both the write and the read of the
Registration Flow dispatch to the local variant (`save_local` /
`load_local`), the rest of the flow being the same function of their
results. -/
theorem init_failure_falls_back_to_local (env : FirebaseEnv)
    (h : env.firebase_available = false ∨ env.cred_file_exists = false ∨
         ∃ e, env.connect = .error e) :
    init_firebase env = none ∧
    (∀ (doc : Rec) (serverId : String) (remote : RemoteColl) (fs : LocalFile),
      store_record (init_firebase env) doc serverId remote fs =
        (save_local (recordToJson doc) fs).map fun fs2 => (doc, remote, fs2)) ∧
    (∀ (remote : RemoteColl) (fs : LocalFile),
      load_attendees (init_firebase env) remote fs = load_local fs) := by
  have hinit : init_firebase env = none := by
    unfold init_firebase
    rcases h with h | h | ⟨e, h⟩
    · simp [h]
    · simp [h]
    · simp [h]
  exact ⟨hinit, fun doc sid remote fs => by rw [hinit]; rfl,
         fun remote fs => by rw [hinit]; rfl⟩

/-- Witness for C8: the library-unavailable environment falls back to
local storage. -/
theorem init_failure_falls_back_to_local_witness :
    init_firebase ⟨false, true, .error "boom"⟩ = none ∧
    store_record (init_firebase ⟨false, true, .error "boom"⟩)
        [("name", "A")] "id1" [] .absent =
      some ([("name", "A")], [],
        .present (.wellFormed (.jarr [recordToJson [("name", "A")]]))) ∧
    load_attendees (init_firebase ⟨false, true, .error "boom"⟩) [] .absent = .jarr [] := by
  obtain ⟨h1, h2, h3⟩ :=
    init_failure_falls_back_to_local ⟨false, true, .error "boom"⟩ (Or.inl rfl)
  exact ⟨h1, by rw [h2]; rfl, by rw [h3]; rfl⟩

/-- C1 (amended): for every submission whose trimmed name is non-empty,
against a file parsing to an array, the stored array after the submit is
the array before it plus exactly one new record whose name, class, age
and contact are the submitted values trimmed, whose `created_at` is the
timestamp, and whose reference is the trimmed submitted reference when
that is non-empty and otherwise the first eight characters of the UUID
draw. -/
theorem submit_appends_trimmed_record (inp : FormInput) (u ts : String)
    (fs : LocalFile) (xs : List Json)
    (hload : load_local fs = .jarr xs) (hname : pyStrip inp.name ≠ "") :
    form_submit inp u ts fs = some (.savedAttendee inp.name,
      .present (.wellFormed (.jarr (xs ++ [.jobj
        [("name", .jstr (pyStrip inp.name)), ("class", .jstr (pyStrip inp.cls)),
         ("age", .jstr (pyStrip inp.age)), ("contact", .jstr (pyStrip inp.contact)),
         ("reference", .jstr (if pyStrip inp.reference = "" then u.take 8
                              else pyStrip inp.reference)),
         ("created_at", .jstr ts)]])))) := by
  simp [form_submit, hname, save_local, hload, recordToJson, mkDoc]

/-- Witness for C1 (amended) at a submission with every field padded by
whitespace and a non-empty reference. -/
theorem submit_appends_trimmed_record_witness :
    form_submit ⟨" Asha ", " 3A", "8 ", " 555-0101 ", "ref-1"⟩ "u" "T" .absent =
      some (.savedAttendee " Asha ", .present (.wellFormed (.jarr [.jobj
        [("name", .jstr "Asha"), ("class", .jstr "3A"), ("age", .jstr "8"),
         ("contact", .jstr "555-0101"), ("reference", .jstr "ref-1"),
         ("created_at", .jstr "T")]]))) := by
  have h := submit_appends_trimmed_record ⟨" Asha ", " 3A", "8 ", " 555-0101 ", "ref-1"⟩
    "u" "T" .absent [] rfl (by decide)
  rw [h]
  rfl

/-- C1 counterexample: a valid submission whose reference field is
whitespace-only.  The append happens and is the only change, but the
stored reference is the eight-character UUID slice "cafe1234", not the
trimmed submitted reference (the empty string) — so the new record's
fields are not all "the submitted values with surrounding whitespace
trimmed". -/
theorem submit_reference_not_trimmed_input :
    pyStrip " Asha " ≠ "" ∧
    form_submit ⟨" Asha ", "3A", "8", "555-0101", "   "⟩ "cafe1234-5678-demo" "T" .absent =
      some (.savedAttendee " Asha ", .present (.wellFormed (.jarr [.jobj
        [("name", .jstr "Asha"), ("class", .jstr "3A"), ("age", .jstr "8"),
         ("contact", .jstr "555-0101"), ("reference", .jstr "cafe1234"),
         ("created_at", .jstr "T")]]))) ∧
    "cafe1234" ≠ pyStrip "   " := by
  refine ⟨by decide, ?_, by decide⟩
  rfl

/-- C6: a record carrying a name but none of the optional keys still
renders the full fixed 21-operation layout, with each optional field
shown as a placeholder dash on its fixed line — nothing is omitted and
no position shifts. -/
theorem render_all_optional_missing_fixed_layout (att : Rec) (nm ts : String)
    (hn : att.lookup "name" = some nm)
    (hc : att.lookup "class" = none) (ha : att.lookup "age" = none)
    (hco : att.lookup "contact" = none) (hr : att.lookup "reference" = none) :
    generate_pass_pdf_bytes att ts =
      [ .setFont "Helvetica-Bold" 28,
        .drawCentredString (pageWidth / 2) (pageHeight - 60)
          "Independence Day - Children's Pass",
        .setFont "Helvetica" 12,
        .drawRightString (pageWidth - 40) (pageHeight - 40) ("Generated: " ++ ts),
        .roundRect 60 120 (pageWidth - 120) (pageHeight - 220) 10 1 0,
        .setFont "Helvetica-Bold" 20,
        .drawString 90 (pageHeight - 140) nm,
        .setFont "Helvetica" 14,
        .drawString 90 (pageHeight - 170) "Class / Grade : -",
        .drawString 90 (pageHeight - 200) "Age           : -",
        .drawString 90 (pageHeight - 230) "Contact       : -",
        .drawString 90 (pageHeight - 260) "Reference     : -",
        .setFont "Helvetica-Oblique" 12,
        .drawString 90 (pageHeight - 290) "- Please carry this pass during the event.",
        .drawString 90 (pageHeight - 308) "- Parents/Guardians must supervise children.",
        .setFont "Helvetica" 12,
        .drawString (pageWidth - 260) 150 "Authorized signature:",
        .line (pageWidth - 260) 145 (pageWidth - 90) 145,
        .setFont "Helvetica-Bold" 10,
        .drawCentredString (pageWidth / 2) 30
          "Independence Day • Organised by Your Organization",
        .showPage ] := by
  simp [generate_pass_pdf_bytes, dictGet, EVENT_NAME, hn, hc, ha, hco, hr]
  ring_nf
  simp

/-- Witness for C6 at the record holding only a name. -/
theorem render_all_optional_missing_fixed_layout_witness :
    generate_pass_pdf_bytes [("name", "Asha")] "t" =
      [ .setFont "Helvetica-Bold" 28,
        .drawCentredString (pageWidth / 2) (pageHeight - 60)
          "Independence Day - Children's Pass",
        .setFont "Helvetica" 12,
        .drawRightString (pageWidth - 40) (pageHeight - 40) "Generated: t",
        .roundRect 60 120 (pageWidth - 120) (pageHeight - 220) 10 1 0,
        .setFont "Helvetica-Bold" 20,
        .drawString 90 (pageHeight - 140) "Asha",
        .setFont "Helvetica" 14,
        .drawString 90 (pageHeight - 170) "Class / Grade : -",
        .drawString 90 (pageHeight - 200) "Age           : -",
        .drawString 90 (pageHeight - 230) "Contact       : -",
        .drawString 90 (pageHeight - 260) "Reference     : -",
        .setFont "Helvetica-Oblique" 12,
        .drawString 90 (pageHeight - 290) "- Please carry this pass during the event.",
        .drawString 90 (pageHeight - 308) "- Parents/Guardians must supervise children.",
        .setFont "Helvetica" 12,
        .drawString (pageWidth - 260) 150 "Authorized signature:",
        .line (pageWidth - 260) 145 (pageWidth - 90) 145,
        .setFont "Helvetica-Bold" 10,
        .drawCentredString (pageWidth / 2) 30
          "Independence Day • Organised by Your Organization",
        .showPage ] := by
  have h := render_all_optional_missing_fixed_layout [("name", "Asha")] "Asha" "t"
    (by decide) (by decide) (by decide) (by decide) (by decide)
  rw [h]
  rfl
